import Mathlib

/-!
Verification development for the ai-app-generator service (FastAPI gateway,
LLM code generator, GitHub repository publisher).  The Python sources under
app/ are shallowly embedded: collaborator calls (GitHub API, LLM HTTP
backends, the filesystem, the callback endpoint) are modelled as oracles
giving the outcome of each attempt, while the program's own control flow —
tenacity retry wrappers, exception handling, string building, Python name
resolution — is translated faithfully from the code.
-/

/-! ## Python exceptions

GithubException carries an HTTP status; NameError is raised by Python when a
name lookup fails at run time; httpx errors and ValueError appear in the LLM
client; `other` stands for a plain `Exception(msg)`. -/

structure GHError where
  status : Nat
  msg : String
deriving Repr, DecidableEq

inductive PyError where
  | gh : GHError → PyError
  | nameError : String → PyError
  | http : String → PyError
  | value : String → PyError
  | other : String → PyError
deriving Repr, DecidableEq

def isGithubException : PyError → Bool
  | PyError.gh _ => true
  | _ => false

def isHttpError : PyError → Bool
  | PyError.http _ => true
  | _ => false

def ghStatus : PyError → Option Nat
  | PyError.gh g => some g.status
  | _ => none

/-! ## The tenacity retry decorator

The code decorates calls with
retry(stop=stop_after_attempt(n), wait=wait_exponential(multiplier, min, max),
      retry=retry_if_exception_type(E), reraise=True).
An attempt that raises an exception of type E is retried until n attempts
have run; an exception not of type E propagates at once; after the final
attempt the last exception is reraised unchanged.  The oracle `a` gives the
outcome of each attempt (attempt numbers start at 0 here); the second
component of the result counts the attempts that ran. -/

structure RetryPolicy where
  maxAttempts : Nat
  retryOn : PyError → Bool

def retryGo (r : PyError → Bool) (a : Nat → Except PyError α) : Nat → Nat → Except PyError α × Nat
  | k, 0 => (a k, k + 1)
  | k, fuel + 1 =>
    match a k with
    | Except.ok v => (Except.ok v, k + 1)
    | Except.error e =>
      match fuel with
      | 0 => (Except.error e, k + 1)
      | _ + 1 => if r e then retryGo r a (k + 1) fuel else (Except.error e, k + 1)

def retryRun (p : RetryPolicy) (a : Nat → Except PyError α) : Except PyError α × Nat :=
  retryGo p.retryOn a 0 p.maxAttempts

def retryResult (p : RetryPolicy) (a : Nat → Except PyError α) : Except PyError α :=
  (retryRun p a).1

/-- tenacity's wait_exponential: after the k-th failed attempt (k counted
from 1) the wait is multiplier * 2^k clamped into [mn, mx]. -/
def wait_exponential (multiplier mn mx k : Nat) : Nat :=
  max mn (min (multiplier * 2 ^ k) mx)

/-- The policy on every GitHub call in github_client.py:
stop_after_attempt(3), wait_exponential(multiplier=1, min=2, max=8),
retry_if_exception_type(GithubException), reraise=True. -/
def githubRetryPolicy : RetryPolicy :=
  { maxAttempts := 3, retryOn := isGithubException }

/-- The policy on call_aipipe and call_huggingface in llm_handler.py:
stop_after_attempt(3), wait_exponential(multiplier=1, min=2, max=8),
retry_if_exception_type(Exception) — every exception is retried. -/
def anyExceptionRetryPolicy : RetryPolicy :=
  { maxAttempts := 3, retryOn := fun _ => true }

/-- The policy on send_callback in main.py: stop_after_attempt(5),
wait_exponential(multiplier=1, min=2, max=16),
retry_if_exception_type(httpx.HTTPError), reraise=True. -/
def callbackRetryPolicy : RetryPolicy :=
  { maxAttempts := 5, retryOn := isHttpError }

/-! ## Retry wrapper lemmas -/

theorem retryGo_snd_lower (r : PyError → Bool) (a : Nat → Except PyError α) :
    ∀ fuel k, k + 1 ≤ (retryGo r a k fuel).2 := by
  intro fuel
  induction fuel with
  | zero => intro k; simp [retryGo]
  | succ n ih =>
    intro k
    simp only [retryGo]
    cases a k with
    | ok v => simp
    | error e =>
      cases n with
      | zero => simp
      | succ m =>
        by_cases hr : r e
        · simp only [hr, if_true]
          have := ih (k + 1)
          omega
        · simp [hr]

theorem retryGo_snd_upper (r : PyError → Bool) (a : Nat → Except PyError α) :
    ∀ fuel k, (retryGo r a k fuel).2 ≤ k + max 1 fuel := by
  intro fuel
  induction fuel with
  | zero => intro k; simp [retryGo]
  | succ n ih =>
    intro k
    simp only [retryGo]
    cases a k with
    | ok v => simp
    | error e =>
      cases n with
      | zero => simp
      | succ m =>
        by_cases hr : r e
        · simp only [hr, if_true]
          have := ih (k + 1)
          omega
        · simp [hr]

theorem retryGo_reraise (r : PyError → Bool) (a : Nat → Except PyError α) :
    ∀ fuel k e, (retryGo r a k fuel).1 = Except.error e →
      a ((retryGo r a k fuel).2 - 1) = Except.error e := by
  intro fuel
  induction fuel with
  | zero => intro k e h; simpa [retryGo] using h
  | succ n ih =>
    intro k e h
    simp only [retryGo] at h ⊢
    cases ha : a k with
    | ok v => rw [ha] at h; simp at h
    | error e1 =>
      rw [ha] at h
      cases n with
      | zero =>
        simp at h ⊢
        rw [← h]; exact ha
      | succ m =>
        by_cases hr : r e1
        · simp only [hr, if_true] at h ⊢
          exact ih (k + 1) e h
        · simp [hr] at h ⊢
          rw [← h]; exact ha

theorem retryGo_retried_only_on (r : PyError → Bool) (a : Nat → Except PyError α) :
    ∀ fuel k j, k ≤ j → j + 1 < (retryGo r a k fuel).2 →
      ∃ e, a j = Except.error e ∧ r e = true := by
  intro fuel
  induction fuel with
  | zero =>
    intro k j hkj h
    simp [retryGo] at h
    omega
  | succ n ih =>
    intro k j hkj h
    simp only [retryGo] at h
    cases ha : a k with
    | ok v => rw [ha] at h; simp at h; omega
    | error e1 =>
      rw [ha] at h
      cases n with
      | zero => simp at h; omega
      | succ m =>
        by_cases hr : r e1
        · simp only [hr, if_true] at h
          rcases Nat.lt_or_ge j (k + 1) with hj | hj
          · have : j = k := by omega
            subst this
            exact ⟨e1, ha, hr⟩
          · exact ih (k + 1) j hj h
        · simp [hr] at h; omega

/-! ## Strings: Python single-character replace, document-start markers

Python str.replace with a one-character pattern and a one-character
replacement rewrites every occurrence of that character; as a character map
over the string's characters. -/

def pyReplaceChar (a b : Char) (s : String) : String :=
  String.mk (s.data.map (fun c => if c = a then b else c))

/-- github_client.py line 34:
repo_name.replace(" ", "-").replace("/", "-").replace("\\", "-") — spaces
first, then forward slash, then backslash, each to a dash. -/
def sanitizeRepoName (s : String) : String :=
  pyReplaceChar '\\' '-' (pyReplaceChar '/' '-' (pyReplaceChar ' ' '-' (s)))

/-- tasks.py line 14: att.filename.replace("/", "_").replace("\\", "_"). -/
def sanitizeFilename (s : String) : String :=
  pyReplaceChar '\\' '_' (pyReplaceChar '/' '_' (s))

/-- Python str.lower restricted to ASCII: the document-start check only ever
compares against ASCII marker characters, on which full Unicode lowercasing
and ASCII lowercasing agree. -/
def asciiLower (c : Char) : Char :=
  if c.toNat ≥ 65 && c.toNat ≤ 90 then Char.ofNat (c.toNat + 32) else c

def pyLower (s : String) : String := String.mk (s.data.map asciiLower)

/-- str.startswith as a prefix test on the character sequences. -/
def strStartsWith (s p : String) : Bool := p.data.isPrefixOf s.data

/-- main.py line 75: code.lower().startswith(("<!doctype html", "<html")). -/
def docStartMarker (code : String) : Bool :=
  strStartsWith (pyLower code) ("<!doctype html") || strStartsWith (pyLower code) ("<html")

/-- The literal pieces of the f-string at main.py lines 76-86 that the
orchestrator substitutes the raw output into.  The triple-quoted f-string
opens with a newline and the block's 12-space indentation; wrapWs is exactly
that leading whitespace, wrapDoc the shell text down to the open pre tag,
and wrapSuffix the text after the interpolated code. -/
def wrapWs : String := "\n            "

def wrapDoc : String :=
  "<!DOCTYPE html>\n            <html>\n            <head><title>Generated Page</title></head>\n            <body>\n                <h1>Generated Output</h1>\n                <pre>"

def wrapSuffix : String :=
  "</pre>\n            </body>\n            </html>\n            "

def wrapHtml (code : String) : String :=
  wrapWs ++ (wrapDoc ++ (code ++ wrapSuffix))

/-- main.py lines 75-86: if the generated code does not start (after
lowercasing) with a document-start marker, it is interpolated verbatim into
the document shell; otherwise it is left unchanged. -/
def ensure_html (code : String) : String :=
  if docStartMarker code then code else wrapHtml code

/-! ## Data model (app/models.py) -/

structure Attachment where
  filename : String
  content_base64 : String
deriving Repr, DecidableEq

structure TaskRequest where
  email : String
  secret : String
  task : String
  round : Int
  nonce : String
  brief : String
  checks : List String
  evaluation_url : String
  attachments : List Attachment
deriving Repr, DecidableEq

/-! ## Attachment store (app/tasks.py)

The filesystem is an oracle: decodeOk tells whether base64.b64decode accepts
the attachment's payload, writeOk whether opening and writing the target
path succeeds.  UPLOAD_FOLDER is Path("uploads"); str(UPLOAD_FOLDER /
filename) is "uploads/" followed by the sanitized name (pathlib would
collapse an empty or "." component, but such a path never names a writable
regular file, so no saved entry is affected). -/

structure FsWorld where
  decodeOk : String → Bool
  writeOk : String → Bool

def savedPath (a : Attachment) : String :=
  "uploads/" ++ sanitizeFilename a.filename

/-- tasks.py lines 11-24: per attachment, sanitize the name, decode the
payload, write the file and record str(file_path); any exception in the
loop body is logged and the attachment skipped. -/
def save_attachments (fs : FsWorld) : List Attachment → List String
  | [] => []
  | a :: rest =>
    if fs.decodeOk a.content_base64 && fs.writeOk (savedPath a) then
      savedPath a :: save_attachments fs rest
    else
      save_attachments fs rest

/-! ## Prompt and file-bundle construction (main.py)

Python's f-string renders a list of strings with its repr; quoting is
modelled without repr's escaping, which the embedded claims never exercise. -/

def squote : String := String.singleton (Char.ofNat 39)

def pyStrRepr (s : String) : String := squote ++ (s ++ squote)

def pyListRepr (xs : List String) : String :=
  "[" ++ (String.intercalate (", ") (xs.map pyStrRepr) ++ "]")

/-- main.py line 58. -/
def freshPrompt (req : TaskRequest) (attachments_info : String) : String :=
  "Generate a static HTML page (including HTML, CSS, and JavaScript if needed) to implement the following: "
    ++ (req.brief ++ (". Attachments: "
    ++ (attachments_info ++ (". Checks to satisfy: "
    ++ (pyListRepr req.checks ++ ".")))))

/-- main.py line 67. -/
def updatePrompt (req : TaskRequest) (existing_code attachments_info : String) : String :=
  "Update the following existing HTML code based on this new requirement: "
    ++ (req.brief ++ (". Existing code: "
    ++ (existing_code ++ (". Attachments: "
    ++ (attachments_info ++ (". Checks to satisfy: "
    ++ (pyListRepr req.checks ++ ".")))))))

/-- main.py line 90. -/
def readmeText (req : TaskRequest) : String :=
  "# Generated App\nThis repository contains code generated based on the prompt:\n"
    ++ (req.brief ++ ("\n\nChecks: " ++ pyListRepr req.checks))

/-- main.py line 91, verbatim. -/
def licenseText : String :=
  "MIT License\n\nCopyright (c) 2025 AI App Generator\n\nPermission is hereby granted, free of charge, to any person obtaining a copy\nof this software and associated documentation files (the \"Software\"), to deal\nin the Software without restriction, including without limitation the rights\n to use, copy, modify, merge, publish, distribute, sublicense, and/or sell\ncopies of the Software, and to permit persons to whom the Software is\nfurnished to do so, subject to the following conditions:\n\nThe above copyright notice and this permission notice shall be included in all\ncopies or substantial portions of the Software.\n\nTHE SOFTWARE IS PROVIDED \"AS IS\", WITHOUT WARRANTY OF ANY KIND, EXPRESS OR\nIMPLIED, INCLUDING BUT NOT LIMITED TO THE WARRANTIES OF MERCHANTABILITY,\nFITNESS FOR A PARTICULAR PURPOSE AND NONINFRINGEMENT. IN NO EVENT SHALL THE\nAUTHORS OR COPYRIGHT HOLDERS BE LIABLE FOR ANY CLAIM, DAMAGES OR OTHER\nLIABILITY, WHETHER IN AN ACTION OF CONTRACT, TORT OR OTHERWISE, ARISING FROM,\nOUT OF OR IN CONNECTION WITH THE SOFTWARE OR THE USE OR OTHER DEALINGS IN THE\nSOFTWARE."

/-! ## Code generator (app/llm_handler.py)

The two provider credentials are read from the environment at import time;
Python truthiness makes an unset or empty key falsy.  The body of each
provider call (httpx.post, raise_for_status, response parsing, the
ValueError on an empty result) is a collaborator, so each attempt's outcome
is an oracle; the retry decorators and the primary/fallback branching are
the code's own. -/

structure LLMConfig where
  aipipe : Option String
  hf : Option String

structure LLMWorld where
  aipipeAttempt : Nat → Except PyError String
  hfAttempt : Nat → Except PyError String

def pyTruthy : Option String → Bool
  | none => false
  | some s => !s.isEmpty

def call_aipipe (w : LLMWorld) : Except PyError String :=
  retryResult anyExceptionRetryPolicy w.aipipeAttempt

def call_huggingface (w : LLMWorld) : Except PyError String :=
  retryResult anyExceptionRetryPolicy w.hfAttempt

/-- llm_handler.py line 64: raise Exception("No LLM API keys configured"). -/
def noProviderError : PyError := PyError.other ("No LLM API keys configured")

/-- llm_handler.py lines 48-64: if AIPIPE_API_KEY is truthy, try call_aipipe
and return its result; on any exception fall through (with a warning) to the
HuggingFace block, which is also reached when AIPIPE_API_KEY is falsy; that
block calls call_huggingface when HUGGINGFACE_API_KEY is truthy and
otherwise raises the no-keys exception. -/
def generate_code_with_llm (cfg : LLMConfig) (w : LLMWorld) : Except PyError String :=
  if pyTruthy cfg.aipipe then
    match call_aipipe w with
    | Except.ok code => Except.ok code
    | Except.error _ =>
      if pyTruthy cfg.hf then call_huggingface w else Except.error noProviderError
  else
    if pyTruthy cfg.hf then call_huggingface w else Except.error noProviderError

/-! ## Repository publisher (app/github_client.py)

Each GitHub API call's per-attempt outcome is an oracle; attempts are
numbered so that retried attempts can observe a changed backend.  The
remaining structure — the nested try/except blocks, the 404 branches, the
retry decorators, the name sanitization and the result composition — is the
code's. -/

structure Repo where
  html_url : String
deriving Repr, DecidableEq

structure PubWorld where
  getRepoAttempt : Nat → Except PyError Repo
  createRepoAttempt : Nat → Except PyError Repo
  getContentsAttempt : String → Nat → Except PyError String
  updateFileAttempt : String → Nat → Except PyError Unit
  getCommitsEmpty : String → Nat → Except PyError Bool
  createFileAttempt : String → Bool → Nat → Except PyError Unit
  getBranchShaAttempt : Nat → Except PyError String
  enablePagesAttempt : Nat → Except PyError Unit

/-- github_client.py lines 45-61 (one attempt of get_or_create_repo): fetch
the repository; a GithubException with status 404 falls into the create
branch (whose own failures are logged and reraised); any other exception
propagates. -/
def get_or_create_repo_attempt (w : PubWorld) (k : Nat) : Except PyError Repo :=
  match w.getRepoAttempt k with
  | Except.ok repo => Except.ok repo
  | Except.error e =>
    match e with
    | PyError.gh g =>
      if g.status == 404 then w.createRepoAttempt k else Except.error (PyError.gh g)
    | _ => Except.error e

/-- github_client.py lines 71-93 (one attempt of upload_file for one path):
the inner try covers get_contents and update_file; a GithubException with
status 404 from either leads to create_file, choosing the initial-commit
message when the repository has no commits; other GithubExceptions reraise
through the outer handler, and non-GithubExceptions propagate. -/
def upload_file_attempt (w : PubWorld) (path : String) (k : Nat) : Except PyError Unit :=
  let inner : Except PyError Unit :=
    match w.getContentsAttempt path k with
    | Except.ok _sha => w.updateFileAttempt path k
    | Except.error e => Except.error e
  match inner with
  | Except.ok _ => Except.ok ()
  | Except.error e =>
    match e with
    | PyError.gh g =>
      if g.status == 404 then
        match w.getCommitsEmpty path k with
        | Except.ok isEmpty => w.createFileAttempt path isEmpty k
        | Except.error e2 => Except.error e2
      else Except.error (PyError.gh g)
    | _ => Except.error e

/-- github_client.py lines 103-110 (one attempt of get_commit_sha): the
try/except only logs and reraises. -/
def get_commit_sha_attempt (w : PubWorld) (k : Nat) : Except PyError String :=
  w.getBranchShaAttempt k

/-- github_client.py lines 120-131 (one attempt of enable_pages): the body
swallows any GithubException with only a warning, so an attempt fails only
on a non-GithubException escaping the requester call. -/
def enable_pages_attempt (w : PubWorld) (k : Nat) : Except PyError Unit :=
  match w.enablePagesAttempt k with
  | Except.ok _ => Except.ok ()
  | Except.error e =>
    match e with
    | PyError.gh _ => Except.ok ()
    | _ => Except.error e

/-- github_client.py lines 96-97: upload each file in the caller-supplied
order, each under its own retry wrapper. -/
def uploadFiles (w : PubWorld) : List String → Except PyError Unit
  | [] => Except.ok ()
  | p :: rest =>
    match retryResult githubRetryPolicy (upload_file_attempt w p) with
    | Except.ok _ => uploadFiles w rest
    | Except.error e => Except.error e

/-- The names bound in the local scope of create_repo_with_files when
control reaches the pages_url line (github_client.py line 135): its
parameters, the variables it assigns, and the nested function names. -/
def createRepoLocalNames : List String :=
  ["self", "repo_name", "files", "private", "get_or_create_repo", "repo",
   "upload_file", "path", "content", "get_commit_sha", "commit_sha",
   "enable_pages", "repo_url", "pages_url"]

/-- The names bound at module level in app/github_client.py: its imports,
logger and the class.  BASE_REPO_OWNER is assigned only inside __init__
(github_client.py line 14), a separate function scope, so it is bound
neither here nor in the local scope above. -/
def githubClientModuleNames : List String :=
  ["os", "logging", "load_dotenv", "Github", "GithubException", "retry",
   "stop_after_attempt", "wait_exponential", "retry_if_exception_type",
   "urllib", "logger", "GitHubClient"]

/-- Python LEGB name resolution for the interpolation of BASE_REPO_OWNER in
the f-string at github_client.py line 135: if some searched scope bound the
name its value would be interpolated; otherwise Python raises NameError. -/
def resolvePagesOwner : Except PyError String :=
  if (createRepoLocalNames ++ githubClientModuleNames).contains ("BASE_REPO_OWNER") then
    Except.ok ("")
  else
    Except.error (PyError.nameError ("BASE_REPO_OWNER"))

structure PublishResult where
  repo_url : String
  commit_sha : String
  pages_url : String
deriving Repr, DecidableEq

/-- github_client.py lines 27-142 (create_repo_with_files): sanitize the
name, resolve-or-create the repository, upsert each file, read the main
branch's commit sha, run the best-effort enable_pages, then compose
repo_url, pages_url and the result dict. -/
def create_repo_with_files (w : PubWorld) (repo_name0 : String)
    (files : List (String × String)) : Except PyError PublishResult :=
  let repo_name := sanitizeRepoName repo_name0
  match retryResult githubRetryPolicy (get_or_create_repo_attempt w) with
  | Except.error e => Except.error e
  | Except.ok repo =>
    match uploadFiles w (files.map Prod.fst) with
    | Except.error e => Except.error e
    | Except.ok _ =>
      match retryResult githubRetryPolicy (get_commit_sha_attempt w) with
      | Except.error e => Except.error e
      | Except.ok commit_sha =>
        match retryResult githubRetryPolicy (enable_pages_attempt w) with
        | Except.error e => Except.error e
        | Except.ok _ =>
          match resolvePagesOwner with
          | Except.error e => Except.error e
          | Except.ok owner =>
            Except.ok
              { repo_url := repo.html_url
                commit_sha := commit_sha
                pages_url := "https://" ++ (owner ++ (".github.io/" ++ (repo_name ++ "/"))) }

deriving instance DecidableEq for Except

/-! ## Request gateway (main.py lines 27-33 and 114-131) -/

/-- main.py lines 29-33: SECRET = os.getenv("APP_SECRET"); when unset every
request is allowed (dev mode), otherwise the submitted secret must equal it. -/
def validate_secret (SECRET : Option String) (secret : String) : Bool :=
  match SECRET with
  | none => true
  | some s => secret == s

structure GatewayResponse where
  status : Nat
  detail : Option String
  bodyStatus : Option String
  message : Option String
deriving Repr, DecidableEq

/-- What the request handler did before returning: the HTTP response, the
paths of the synchronous persistent writes it performed (log_request appends
to requests_log.json at utils.py line 29; save_attachments writes each saved
attachment), and the submissions handed to BackgroundTasks, which Starlette
runs only after the response has been sent. -/
structure GatewayOutcome where
  response : GatewayResponse
  syncWrites : List String
  scheduled : List TaskRequest
deriving Repr, DecidableEq

/-- main.py lines 114-131 (api_generate): reject with 401 "Invalid secret"
when validation fails (nothing written, nothing scheduled); otherwise append
the request log entry, save the attachments, schedule background_process
for the submission and return the 200 "accepted" acknowledgment. -/
def api_generate (SECRET : Option String) (fs : FsWorld) (req : TaskRequest) : GatewayOutcome :=
  if validate_secret SECRET req.secret = false then
    { response := { status := 401, detail := some ("Invalid secret"),
                    bodyStatus := none, message := none }
      syncWrites := []
      scheduled := [] }
  else
    { response := { status := 200, detail := none, bodyStatus := some ("accepted"),
                    message := some ("Code generation started, repository will be created shortly") }
      syncWrites :=
        "requests_log.json"
          :: (if req.attachments.isEmpty then [] else save_attachments fs req.attachments)
      scheduled := [req] }

/-! ## Pipeline orchestrator (main.py lines 47-111, background_process) -/

/-- The names bound in the local scope of background_process. -/
def backgroundLocalNames : List String :=
  ["task_request", "att_files", "attachments_info", "base_prompt",
   "repo_name", "gh", "repo", "existing_code", "e", "code", "repo_files",
   "repo_info", "payload"]

/-- The names bound at module level in app/main.py: its imports (note
from app.github_client only GitHubClient is imported), logger, app, SECRET
and the functions it defines.  GithubException is bound nowhere in this
module, so evaluating the clause "except GithubException" at main.py line 68
raises NameError. -/
def mainModuleNames : List String :=
  ["os", "logging", "httpx", "uuid", "FastAPI", "BackgroundTasks",
   "HTTPException", "CORSMiddleware", "JSONResponse", "retry",
   "stop_after_attempt", "wait_exponential", "retry_if_exception_type",
   "TaskRequest", "GitHubClient", "save_attachments",
   "generate_code_with_llm", "setup_logging", "log_request", "logger",
   "app", "SECRET", "validate_secret", "send_callback",
   "background_process", "api_generate", "root"]

def mainScopeBindsGithubException : Bool :=
  (backgroundLocalNames ++ mainModuleNames).contains ("GithubException")

structure CallbackPayload where
  email : String
  task : String
  round : Int
  nonce : String
  repo_url : String
  commit_sha : String
  pages_url : String
deriving Repr, DecidableEq

/-- The collaborators one orchestrator run touches: the filesystem for
attachments, the GitHubClient constructor (raises ValueError when a token
is missing, main.py lines 65 and 95), the round-2 fetch chain
gh.gh.get_repo(owner/name).get_contents("index.html") decoded, the LLM
backends, the publisher backend, and the callback POST per attempt. -/
structure OrchWorld where
  fs : FsWorld
  ghInit : Except PyError Unit
  fetchExisting : Except PyError String
  llm : LLMWorld
  pub : PubWorld
  callbackAttempt : Nat → Except PyError Unit

/-- What one background_process run did: its result (the outer try logs and
reraises, so an error means the task terminated), the prompt handed to the
generator, whether the generator, publisher and callback were reached, the
artifact written as index.html, and the callback payload when one was
built. -/
structure OrchOutcome where
  result : Except PyError Unit
  prompt : Option String
  generatorCalled : Bool
  publisherCalled : Bool
  callbackDelivered : Bool
  indexHtml : Option String
  payload : Option CallbackPayload
deriving Repr, DecidableEq

/-- main.py lines 47-111 (background_process): save attachments, build the
fresh prompt; on round == 2 construct a GitHubClient and try to fetch the
existing index.html, rebuilding the prompt from it — the except clause names
GithubException, which main.py never binds, so when the fetch raises, the
handler match itself raises NameError and the run dies; then generate,
normalize to HTML, compose the three-file bundle, publish via
create_repo_with_files, and deliver the callback under its retry policy. -/
def orchAttFiles (w : OrchWorld) (req : TaskRequest) : List String :=
  if req.attachments.isEmpty then [] else save_attachments w.fs req.attachments

/-- main.py line 57: ", ".join(att_files) if att_files else "No attachments". -/
def orchAttachmentsInfo (w : OrchWorld) (req : TaskRequest) : String :=
  if (orchAttFiles w req).isEmpty then ("No attachments")
  else String.intercalate (", ") (orchAttFiles w req)

/-- main.py lines 58-69: the base prompt, replaced on round == 2 by the
update prompt built from the fetched index.html; evaluating the except
clause's GithubException name raises NameError when no scope binds it. -/
def buildPrompt (w : OrchWorld) (req : TaskRequest) : Except PyError String :=
  if req.round == 2 then
    match w.ghInit with
    | Except.error e => Except.error e
    | Except.ok _ =>
      match w.fetchExisting with
      | Except.ok existing_code =>
        Except.ok (updatePrompt req existing_code (orchAttachmentsInfo w req))
      | Except.error e =>
        if mainScopeBindsGithubException then
          (if isGithubException e then Except.ok (freshPrompt req (orchAttachmentsInfo w req))
           else Except.error e)
        else Except.error (PyError.nameError ("GithubException"))
  else Except.ok (freshPrompt req (orchAttachmentsInfo w req))

def background_process (cfg : LLMConfig) (w : OrchWorld) (req : TaskRequest) : OrchOutcome :=
  match buildPrompt w req with
  | Except.error e =>
    { result := Except.error e, prompt := none, generatorCalled := false,
      publisherCalled := false, callbackDelivered := false, indexHtml := none, payload := none }
  | Except.ok prompt =>
    match generate_code_with_llm cfg w.llm with
    | Except.error e =>
      { result := Except.error e, prompt := some prompt, generatorCalled := true,
        publisherCalled := false, callbackDelivered := false, indexHtml := none, payload := none }
    | Except.ok rawCode =>
      let code := ensure_html rawCode
      let repo_files : List (String × String) :=
        [("index.html", code), ("README.md", readmeText req), ("LICENSE", licenseText)]
      match w.ghInit with
      | Except.error e =>
        { result := Except.error e, prompt := some prompt, generatorCalled := true,
          publisherCalled := false, callbackDelivered := false,
          indexHtml := some code, payload := none }
      | Except.ok _ =>
        match create_repo_with_files w.pub ("student-repo-" ++ req.task) repo_files with
        | Except.error e =>
          { result := Except.error e, prompt := some prompt, generatorCalled := true,
            publisherCalled := true, callbackDelivered := false,
            indexHtml := some code, payload := none }
        | Except.ok info =>
          let payload : CallbackPayload :=
            { email := req.email, task := req.task, round := req.round, nonce := req.nonce,
              repo_url := info.repo_url, commit_sha := info.commit_sha,
              pages_url := info.pages_url }
          match retryResult callbackRetryPolicy w.callbackAttempt with
          | Except.error e =>
            { result := Except.error e, prompt := some prompt, generatorCalled := true,
              publisherCalled := true, callbackDelivered := false,
              indexHtml := some code, payload := some payload }
          | Except.ok _ =>
            { result := Except.ok (), prompt := some prompt, generatorCalled := true,
              publisherCalled := true, callbackDelivered := true,
              indexHtml := some code, payload := some payload }

/-- The repository name main.py line 61 derives for a submission. -/
def repoNameFor (req : TaskRequest) : String := "student-repo-" ++ req.task

/-- The sanitized name under which create_repo_with_files addresses the
backing service for a submission. -/
def publishRepoName (req : TaskRequest) : String := sanitizeRepoName (repoNameFor req)

/-! ## Concrete worlds and submissions used to evaluate the embedding -/

def fsAllOk : FsWorld := { decodeOk := fun _ => true, writeOk := fun _ => true }

def okRepo : Repo := { html_url := "https://github.com/owner/student-repo-t1" }

/-- A backend on which every publisher call succeeds at the first attempt. -/
def allOkPub : PubWorld :=
  { getRepoAttempt := fun _ => Except.ok okRepo
    createRepoAttempt := fun _ => Except.ok okRepo
    getContentsAttempt := fun _ _ => Except.ok ("oldsha")
    updateFileAttempt := fun _ _ => Except.ok ()
    getCommitsEmpty := fun _ _ => Except.ok false
    createFileAttempt := fun _ _ _ => Except.ok ()
    getBranchShaAttempt := fun _ => Except.ok ("abc123def")
    enablePagesAttempt := fun _ => Except.ok () }

def demoFiles : List (String × String) :=
  [("index.html", "<html></html>"), ("README.md", "# Generated App"), ("LICENSE", "MIT License")]

/-- Only the AIPipe credential is configured. -/
def cfgPrimary : LLMConfig := { aipipe := some ("k"), hf := none }

/-- Neither generation credential is configured. -/
def cfgNone : LLMConfig := { aipipe := none, hf := none }

def llmOkWorld : LLMWorld :=
  { aipipeAttempt := fun _ => Except.ok ("<html><body>ok</body></html>")
    hfAttempt := fun _ => Except.ok ("<html></html>") }

/-- Every AIPipe attempt fails with a transport error. -/
def llmPrimaryFailWorld : LLMWorld :=
  { aipipeAttempt := fun _ => Except.error (PyError.http ("connect timeout"))
    hfAttempt := fun _ => Except.ok ("<html></html>") }

def round1Req : TaskRequest :=
  { email := "a@b.c", secret := "s", task := "t1", round := 1, nonce := "n1",
    brief := "make a page", checks := ["has a button"], evaluation_url := "http://eval/cb",
    attachments := [] }

def round2Req : TaskRequest := { round1Req with round := 2, brief := "add a form" }

def round3Req : TaskRequest := { round1Req with round := 3 }

/-- Hosting-enable fails with a definitive 403; everything else succeeds. -/
def pagesFailPub : PubWorld :=
  { allOkPub with
    enablePagesAttempt := fun _ => Except.error (PyError.gh { status := 403, msg := "Forbidden" }) }

def pagesFailWorld : OrchWorld :=
  { fs := fsAllOk, ghInit := Except.ok (), fetchExisting := Except.ok (""),
    llm := llmOkWorld, pub := pagesFailPub, callbackAttempt := fun _ => Except.ok () }

/-- The round-2 fetch of the existing index.html raises a backend error. -/
def fetchFailWorld : OrchWorld :=
  { fs := fsAllOk, ghInit := Except.ok (),
    fetchExisting := Except.error (PyError.gh { status := 500, msg := "Server Error" }),
    llm := llmOkWorld, pub := allOkPub, callbackAttempt := fun _ => Except.ok () }

def fetchOkWorld : OrchWorld :=
  { fetchFailWorld with fetchExisting := Except.ok ("<html>old</html>") }

def err403 : PyError := PyError.gh { status := 403, msg := "Forbidden" }

def attA : Attachment := { filename := "a.txt", content_base64 := "aGk=" }

def demoReq : TaskRequest := { round1Req with attachments := [attA] }

/-! ## Character-level consequences of the sanitizers -/

theorem pyReplaceChar_mem (a b : Char) (s : String) (c : Char)
    (h : c ∈ (pyReplaceChar a b s).data) : c = b ∨ (c ∈ s.data ∧ c ≠ a) := by
  simp only [pyReplaceChar, List.mem_map] at h
  obtain ⟨c0, hc0, hmap⟩ := h
  by_cases hca : c0 = a
  · rw [if_pos hca] at hmap
    exact Or.inl hmap.symm
  · rw [if_neg hca] at hmap
    exact Or.inr ⟨hmap ▸ hc0, hmap ▸ hca⟩

theorem sanitizeRepoName_mem (s : String) (c : Char)
    (h : c ∈ (sanitizeRepoName s).data) : c ≠ ' ' ∧ c ≠ '/' ∧ c ≠ '\\' := by
  unfold sanitizeRepoName at h
  rcases pyReplaceChar_mem _ _ _ _ h with h1 | ⟨h2, hne3⟩
  · subst h1; exact ⟨by decide, by decide, by decide⟩
  · rcases pyReplaceChar_mem _ _ _ _ h2 with h1 | ⟨h3, hne2⟩
    · subst h1; exact ⟨by decide, by decide, by decide⟩
    · rcases pyReplaceChar_mem _ _ _ _ h3 with h1 | ⟨_, hne1⟩
      · subst h1; exact ⟨by decide, by decide, by decide⟩
      · exact ⟨hne1, hne2, hne3⟩

theorem sanitizeFilename_mem (s : String) (c : Char)
    (h : c ∈ (sanitizeFilename s).data) : c ≠ '/' ∧ c ≠ '\\' := by
  unfold sanitizeFilename at h
  rcases pyReplaceChar_mem _ _ _ _ h with h1 | ⟨h2, hne2⟩
  · subst h1; exact ⟨by decide, by decide⟩
  · rcases pyReplaceChar_mem _ _ _ _ h2 with h1 | ⟨_, hne1⟩
    · subst h1; exact ⟨by decide, by decide⟩
    · exact ⟨hne1, hne2⟩

/-! ## Claim C1 -/

/-- Claim C1.  The claim says a publish in which resolve-or-create, every
file upsert and the commit read succeed returns {repo_url, commit_sha,
pages_url} with pages_url a pure projection of the configured owner and the
sanitized name.  On a backend where every one of those calls succeeds (the
first four conjuncts), create_repo_with_files instead raises NameError while
composing pages_url: BASE_REPO_OWNER is a local variable of __init__ alone
and is bound neither in the method's scope nor at module level, so the
function never returns a result at all. -/
theorem C1_publish_raises_NameError_on_pages_url :
    retryResult githubRetryPolicy (get_or_create_repo_attempt allOkPub) = Except.ok okRepo
  ∧ uploadFiles allOkPub (demoFiles.map Prod.fst) = Except.ok ()
  ∧ retryResult githubRetryPolicy (get_commit_sha_attempt allOkPub) = Except.ok ("abc123def")
  ∧ retryResult githubRetryPolicy (enable_pages_attempt allOkPub) = Except.ok ()
  ∧ create_repo_with_files allOkPub ("student-repo-t1") demoFiles
      = Except.error (PyError.nameError ("BASE_REPO_OWNER")) := by
  refine ⟨by decide, by decide, by decide, by decide, by decide⟩

/-! ## Claim C2 -/

/-- Claim C2, counterexample.  The claim says the artifact written as the
index file always begins with a recognized document-start marker.  For the
raw output "hello" the wrapped artifact begins with the f-string's leading
newline and indentation, not with a marker. -/
theorem C2_counterexample_wrapped_output_starts_with_whitespace :
    docStartMarker (ensure_html ("hello")) = false
  ∧ strStartsWith (ensure_html ("hello")) ("\n            <!DOCTYPE html") = true := by
  refine ⟨by decide, by decide⟩

/-- Claim C2 as amended: an output already beginning (case-insensitively)
with "<!doctype html" or "<html" is passed through unchanged; any other
output is embedded verbatim into the fixed document shell, which consists of
leading whitespace followed by text that begins with the marker "<!DOCTYPE
html" — so the wrapped artifact begins with a recognized marker only after
its leading whitespace, not literally at its first character. -/
theorem C2_wrap_normalization (code : String) :
    (docStartMarker code = true → ensure_html code = code)
  ∧ (docStartMarker code = false →
        ensure_html code = wrapWs ++ (wrapDoc ++ (code ++ wrapSuffix))
      ∧ wrapWs.data.all (fun c => c.isWhitespace) = true
      ∧ docStartMarker wrapDoc = true) := by
  constructor
  · intro h
    simp [ensure_html, h]
  · intro h
    refine ⟨by simp [ensure_html, h, wrapHtml], by decide, by decide⟩

/-! ## Claim C3 -/

set_option maxRecDepth 4000 in
/-- Claim C3.  The claim says that on round >= 2 the prompt is built from
the fetched index file and that a failed fetch falls back to the fresh
prompt without terminating the task.  In the code: (a) main.py binds no name
GithubException (first conjunct), so when the round-2 fetch raises, the
except clause itself raises NameError and the run dies before the generator
is ever invoked (second and third conjuncts); (b) the fetch is guarded by
round == 2, so a round-3 submission uses the fresh prompt even though the
fetch would have succeeded (fourth conjunct). -/
theorem C3_round2_fetch_failure_terminates_task :
    mainScopeBindsGithubException = false
  ∧ (background_process cfgPrimary fetchFailWorld round2Req).result
      = Except.error (PyError.nameError ("GithubException"))
  ∧ (background_process cfgPrimary fetchFailWorld round2Req).generatorCalled = false
  ∧ (background_process cfgPrimary fetchOkWorld round3Req).prompt
      = some (freshPrompt round3Req ("No attachments")) := by
  refine ⟨by decide, by decide, by decide, by decide⟩

/-! ## Claim C4 -/

/-- The retry condition as the spec words it: transient backend errors
(5xx) or not-found, and no other definitive 4xx outcome. -/
def specRetryPredicate : PyError → Bool
  | PyError.gh g => (500 ≤ g.status) || (g.status == 404)
  | _ => false

/-- Claim C4, counterexample.  The claim says definitive 4xx outcomes other
than not-found are not retried; the decorator retries on every
GithubException, so a call that keeps failing with 403 Forbidden is
attempted all 3 times even though the spec's predicate rejects it. -/
theorem C4_counterexample_403_is_retried :
    (retryRun githubRetryPolicy (fun _ => (Except.error err403 : Except PyError Unit))).2 = 3
  ∧ specRetryPredicate err403 = false := by
  refine ⟨by decide, by decide⟩

/-- Claim C4 as amended: every wrapped publisher call runs at most 3
attempts; the wait after the k-th failed attempt starts at 2, doubles, and
is capped at 8; a retry happens only after an attempt failed with a
GithubException — of any status, definitive 4xx included, not-found being
handled inside the attempt by the create branch — and when the wrapper
fails, the error it raises is exactly the final attempt's error, unchanged. -/
theorem C4_retry_wrapper_behavior {α : Type} (a : Nat → Except PyError α) :
    (1 ≤ (retryRun githubRetryPolicy a).2 ∧ (retryRun githubRetryPolicy a).2 ≤ 3)
  ∧ (∀ e, (retryRun githubRetryPolicy a).1 = Except.error e →
        a ((retryRun githubRetryPolicy a).2 - 1) = Except.error e)
  ∧ (∀ j, j + 1 < (retryRun githubRetryPolicy a).2 →
        ∃ e, a j = Except.error e ∧ isGithubException e = true)
  ∧ (wait_exponential 1 2 8 1 = 2 ∧ wait_exponential 1 2 8 2 = 4
      ∧ ∀ k, 2 ≤ wait_exponential 1 2 8 k ∧ wait_exponential 1 2 8 k ≤ 8) := by
  refine ⟨⟨?_, ?_⟩, ?_, ?_, by decide, by decide, ?_⟩
  · exact retryGo_snd_lower isGithubException a 3 0
  · exact retryGo_snd_upper isGithubException a 3 0
  · intro e h
    exact retryGo_reraise isGithubException a 3 0 e h
  · intro j h
    exact retryGo_retried_only_on isGithubException a 3 0 j (Nat.zero_le j) h
  · intro k
    constructor
    · exact le_max_left _ _
    · exact max_le (by norm_num) (min_le_right _ _)

/-! ## Claim C5 -/

/-- Claim C5, counterexample.  The claim says the no-provider failure occurs
exactly when neither backend has credentials.  Here the primary credential
is configured but every primary attempt fails and no fallback credential
exists: the code still raises Exception("No LLM API keys configured"). -/
theorem C5_counterexample_no_provider_error_despite_configured_primary :
    pyTruthy cfgPrimary.aipipe = true
  ∧ generate_code_with_llm cfgPrimary llmPrimaryFailWorld = Except.error noProviderError := by
  refine ⟨by decide, by decide⟩

/-- Claim C5 as amended: the primary backend is tried first and its success
is returned; the fallback runs exactly when the primary is unconfigured or
has exhausted its own retries and the fallback is configured; the
no-keys-configured exception is raised exactly when the fallback credential
is missing and the primary is unconfigured or failed — so also when a
configured primary fails with no fallback, not only when neither backend
has credentials; and whenever neither credential is configured the
orchestrator run ends in an error without ever reaching the Publisher or
the callback. -/
theorem C5_generator_fallback_structure (cfg : LLMConfig) (w : LLMWorld)
    (ow : OrchWorld) (req : TaskRequest) :
    (∀ c, pyTruthy cfg.aipipe = true → call_aipipe w = Except.ok c →
        generate_code_with_llm cfg w = Except.ok c)
  ∧ (pyTruthy cfg.aipipe = false → pyTruthy cfg.hf = true →
        generate_code_with_llm cfg w = call_huggingface w)
  ∧ (∀ e, pyTruthy cfg.aipipe = true → call_aipipe w = Except.error e → pyTruthy cfg.hf = true →
        generate_code_with_llm cfg w = call_huggingface w)
  ∧ (call_huggingface w ≠ Except.error noProviderError →
        (generate_code_with_llm cfg w = Except.error noProviderError ↔
          pyTruthy cfg.hf = false ∧
            (pyTruthy cfg.aipipe = false ∨ ∃ e, call_aipipe w = Except.error e)))
  ∧ (pyTruthy cfg.aipipe = false → pyTruthy cfg.hf = false →
        generate_code_with_llm cfg w = Except.error noProviderError)
  ∧ (pyTruthy cfg.aipipe = false → pyTruthy cfg.hf = false →
        (background_process cfg ow req).publisherCalled = false
      ∧ (background_process cfg ow req).callbackDelivered = false
      ∧ (background_process cfg ow req).result.isOk = false) := by
  refine ⟨?_, ?_, ?_, ?_, ?_, ?_⟩
  · intro c hA hc
    simp [generate_code_with_llm, hA, hc]
  · intro hA hH
    simp [generate_code_with_llm, hA, hH]
  · intro e hA hc hH
    simp [generate_code_with_llm, hA, hc, hH]
  · intro hhf
    cases hA : pyTruthy cfg.aipipe with
    | true =>
      cases hc : call_aipipe w with
      | ok c =>
        simp [generate_code_with_llm, hA, hc]
      | error e0 =>
        cases hH : pyTruthy cfg.hf with
        | true =>
          simp only [generate_code_with_llm, hA, hc, hH, if_true]
          exact iff_of_false hhf (by rintro ⟨h1, _⟩; simp [hH] at h1)
        | false =>
          simp only [generate_code_with_llm, hA, hc, hH, if_true, if_false]
          exact iff_of_true rfl ⟨by trivial, Or.inr ⟨e0, rfl⟩⟩
    | false =>
      cases hH : pyTruthy cfg.hf with
      | true =>
        simp only [generate_code_with_llm, hA, hH, if_false, if_true]
        exact iff_of_false hhf (by rintro ⟨h1, _⟩; simp [hH] at h1)
      | false =>
        simp only [generate_code_with_llm, hA, hH, if_false]
        exact iff_of_true rfl ⟨by trivial, Or.inl (by trivial)⟩
  · intro hA hH
    simp [generate_code_with_llm, hA, hH]
  · intro hA hH
    have hgen : generate_code_with_llm cfg ow.llm = Except.error noProviderError := by
      simp [generate_code_with_llm, hA, hH]
    unfold background_process
    cases hb : buildPrompt ow req with
    | error e => exact ⟨rfl, rfl, rfl⟩
    | ok p =>
      rw [hgen]
      exact ⟨rfl, rfl, rfl⟩

/-! ## Claim C6 -/

set_option maxRecDepth 4000 in
/-- Claim C6.  The claim says a publish whose only failure is
hosting-enable still succeeds and the orchestrator still delivers the
callback.  The first two conjuncts show the premise in the code's favour:
enable_pages swallows the 403 GithubException (only a warning) and the
commit read succeeded, so hosting failure alone fails nothing.  But the run
still never sends a callback, because create_repo_with_files then raises
NameError on the pages_url composition regardless of hosting, so the
orchestrator's try/except logs the error and the task dies. -/
theorem C6_hosting_failure_swallowed_but_callback_never_sent :
    retryResult githubRetryPolicy (enable_pages_attempt pagesFailPub) = Except.ok ()
  ∧ retryResult githubRetryPolicy (get_commit_sha_attempt pagesFailPub) = Except.ok ("abc123def")
  ∧ (background_process cfgPrimary pagesFailWorld round1Req).result
      = Except.error (PyError.nameError ("BASE_REPO_OWNER"))
  ∧ (background_process cfgPrimary pagesFailWorld round1Req).callbackDelivered = false := by
  refine ⟨by decide, by decide, by decide, by decide⟩

/-! ## Claim C7 -/

/-- Claim C7: when a shared secret is configured and the submitted one
differs, api_generate answers 401 with detail "Invalid secret", performs no
writes and schedules no orchestrator run; when no secret is configured,
every request is accepted (200, body status "accepted") and the run is
scheduled, whatever secret was submitted. -/
theorem C7_gateway_secret_validation (fs : FsWorld) (req : TaskRequest) (s : String) :
    (req.secret ≠ s →
        (api_generate (some s) fs req).response.status = 401
      ∧ (api_generate (some s) fs req).response.detail = some ("Invalid secret")
      ∧ (api_generate (some s) fs req).scheduled = [])
  ∧ ((api_generate none fs req).response.status = 200
      ∧ (api_generate none fs req).response.bodyStatus = some ("accepted")
      ∧ (api_generate none fs req).scheduled = [req]) := by
  constructor
  · intro h
    have hv : validate_secret (some s) req.secret = false := by
      simp [validate_secret, h]
    simp [api_generate, hv]
  · simp [api_generate, validate_secret]

/-! ## Claim C8 -/

/-- Claim C8: the name under which a submission is published is a pure
function of the task id alone — two submissions agreeing on task, whatever
their round, nonce or other fields, publish to the same repository name —
and that name is the prefixed task id with every space, '/' and '\\'
replaced by the '-' separator, so the sanitized name contains none of those
characters. -/
theorem C8_repo_name_pure_function_of_task (r1 r2 : TaskRequest) (s : String) :
    (r1.task = r2.task → publishRepoName r1 = publishRepoName r2)
  ∧ publishRepoName r1 = sanitizeRepoName ("student-repo-" ++ r1.task)
  ∧ (∀ c, c ∈ (sanitizeRepoName s).data → c ≠ ' ' ∧ c ≠ '/' ∧ c ≠ '\\') := by
  refine ⟨?_, rfl, ?_⟩
  · intro h
    simp [publishRepoName, repoNameFor, h]
  · intro c hc
    exact sanitizeRepoName_mem s c hc

/-! ## Claim C9 -/

/-- Claim C9, counterexample.  The claim says the handler performs no
synchronous persistent writes beyond the handoff.  For an accepted request
with one attachment, the handler appends a request-log entry and writes the
attachment file before returning. -/
theorem C9_counterexample_handler_writes_before_returning :
    (api_generate none fsAllOk demoReq).syncWrites = [("requests_log.json"), ("uploads/a.txt")]
  ∧ (api_generate none fsAllOk demoReq).syncWrites ≠ [] := by
  refine ⟨by decide, by decide⟩

/-- Claim C9 as amended: a request that passes secret validation makes the
handler perform exactly two kinds of synchronous persistent writes before
answering — the append to requests_log.json by log_request and the
attachment saves — after which it returns the accepted acknowledgment with
the orchestrator run merely scheduled (BackgroundTasks executes it only
after the response is sent), not yet begun. -/
theorem C9_handler_synchronous_effects (SECRET : Option String) (fs : FsWorld)
    (req : TaskRequest) :
    (validate_secret SECRET req.secret = true →
        (api_generate SECRET fs req).syncWrites
          = ("requests_log.json")
              :: (if req.attachments.isEmpty then [] else save_attachments fs req.attachments))
  ∧ (validate_secret SECRET req.secret = true →
        (api_generate SECRET fs req).response.status = 200
      ∧ (api_generate SECRET fs req).response.bodyStatus = some ("accepted")
      ∧ (api_generate SECRET fs req).scheduled = [req]) := by
  constructor
  · intro h
    simp [api_generate, h]
  · intro h
    simp [api_generate, h]

/-! ## Claim C10 -/

/-- Claim C10: save_attachments returns exactly the target paths of the
attachments whose decode and write both succeeded, in order — an attachment
whose decode or write fails is skipped without aborting the rest — and every
path it writes is the uploads directory joined with the attachment's
filename after every '/' and '\\' has been replaced by '_', a name that
therefore contains no path separator. -/
theorem C10_attachment_paths_confined_and_failures_skipped (fs : FsWorld)
    (atts : List Attachment) :
    save_attachments fs atts
      = (atts.filter
            (fun a => fs.decodeOk a.content_base64 && fs.writeOk (savedPath a))).map
          (fun a => savedPath a)
  ∧ (∀ p, p ∈ save_attachments fs atts → ∃ a, a ∈ atts
      ∧ p = "uploads/" ++ sanitizeFilename a.filename
      ∧ ∀ c, c ∈ (sanitizeFilename a.filename).data → c ≠ '/' ∧ c ≠ '\\') := by
  have hfilter : save_attachments fs atts
      = (atts.filter
            (fun a => fs.decodeOk a.content_base64 && fs.writeOk (savedPath a))).map
          (fun a => savedPath a) := by
    induction atts with
    | nil => simp [save_attachments]
    | cons a rest ih =>
      by_cases hc : fs.decodeOk a.content_base64 && fs.writeOk (savedPath a)
      · simp [save_attachments, List.filter_cons, hc, ih]
      · simp [save_attachments, List.filter_cons, hc, ih]
  refine ⟨hfilter, ?_⟩
  intro p hp
  rw [hfilter] at hp
  simp only [List.mem_map, List.mem_filter] at hp
  obtain ⟨a, ⟨ha, _⟩, rfl⟩ := hp
  refine ⟨a, ha, rfl, ?_⟩
  intro c hc
  exact sanitizeFilename_mem a.filename c hc
